import Mathlib

/-!
Verification of the Sintellii web API client (`src/__init__.py`).

The client is a single class `APIClient` with one operation `generate`.
`generate` validates its arguments, builds a JSON payload, issues one
streaming HTTP POST and decodes the response body line by line into a
sequence of events.  We embed the client shallowly:

* JSON values are the inductive `Json` (numbers are carried as integers;
  every numeric field of the wire protocol is an integer).
* A response-body line, as the client sees it, is a `RawLine`: blank
  (skipped by `if line:`), malformed (UTF-8 decoding or `json.loads`
  raises), or a parsed `Json` value.
* The transport is a `Transport`: either an up-front failure
  (`raise_for_status` or a network exception before any line arrives) or
  a stream of lines, with a flag recording whether a network exception
  interrupted the iteration after those lines; the surrounding
  `try/except` swallows that exception, so the flag does not change the
  produced events.
* Python `None` is `Option.none`; `dict.get` returns `None` both for a
  missing key and for a JSON `null` value, which `getPy` mirrors by
  collapsing `Json.null` to `none`.
* `json.loads` keeps the last binding of a duplicated key, which
  `lookupLast` mirrors.
* The dynamic-typing behaviour of the `generating` branch is modelled
  exactly: `"text" in delta` is key membership for a dict, substring
  search for a string, element membership for a list, and a `TypeError`
  (hence a `Failure` event via the inner `except`) for `None`, numbers
  and booleans; `delta.get` on a string or list raises `AttributeError`.
-/

inductive Json where
  | null : Json
  | bool (b : Bool) : Json
  | num (n : Int) : Json
  | str (s : String) : Json
  | arr (xs : List Json) : Json
  | obj (fields : List (String × Json)) : Json

/-- Last-binding association lookup: `json.loads` keeps the last
occurrence of a duplicated key, so object field lookup returns the
final binding of the key. -/
def lookupLast (k : String) : List (String × Json) → Option Json
  | [] => none
  | p :: rest =>
    match lookupLast k rest with
    | some v => some v
    | none => if p.1 = k then some p.2 else none

/-- Field lookup on a JSON object; `none` on non-objects. -/
def Json.get : Json → String → Option Json
  | Json.obj fs, k => lookupLast k fs
  | _, _ => none

/-- The Python value of `d.get(k)`: `None` both when the key is missing
and when its value is JSON `null`. -/
def getPy (j : Json) (k : String) : Option Json :=
  match j.get k with
  | some Json.null => none
  | v => v

/-- Whether the character list `pat` is a prefix of the second list. -/
def pyStartsWith : List Char → List Char → Bool
  | [], _ => true
  | _ :: _, [] => false
  | a :: as, b :: bs => a == b && pyStartsWith as bs

/-- Whether the character list `pat` occurs somewhere in the second list. -/
def pyContainsList (pat : List Char) : List Char → Bool
  | [] => pyStartsWith pat []
  | s@(_ :: rest) => pyStartsWith pat s || pyContainsList pat rest

/-- Python `pat in s` for strings: substring test. -/
def pyStrIn (pat s : String) : Bool :=
  pyContainsList pat.data s.data

/-- Python `v == lit` for a string literal `lit`: true exactly when `v`
is a string equal to `lit` (a number, boolean, `None`, list or dict
never equals a string). -/
def pyEqStr (lit : String) : Option Json → Bool
  | some (Json.str t) => t == lit
  | _ => false

/-- One decoded event of the produced sequence.  The Python generator
yields `((text, img), (steps, tks))` for a delta, `(cost, cost_per_mtk)`
for a completion and `None` for a failure; we tag the three shapes. -/
inductive StreamEvent where
  | delta (text image step tokens : Option Json) : StreamEvent
  | completion (cost cost_per_mtk : Option Json) : StreamEvent
  | failure : StreamEvent

/-- Outcome of processing one parsed line inside the loop body. -/
inductive LineResult where
  | skip : LineResult
  | event (e : StreamEvent) : LineResult
  | stop (e : StreamEvent) : LineResult

/-- The `status == "generating"` branch.  `delta = json_data.get("delta")`
is a Python value; `"text" in delta` / `delta.get("text")` behave by the
runtime type of `delta`, and any raised exception is caught by the inner
`except`, which yields `None` (a `Failure`) and breaks. -/
def processGenerating (j : Json) : LineResult :=
  match getPy j "delta" with
  | none => LineResult.stop StreamEvent.failure
  | some (Json.obj d) =>
    LineResult.event (StreamEvent.delta (getPy (Json.obj d) "text")
      (getPy (Json.obj d) "image") (getPy j "step") (getPy j "tokens"))
  | some (Json.str s) =>
    if pyStrIn "text" s || pyStrIn "image" s then LineResult.stop StreamEvent.failure
    else LineResult.event (StreamEvent.delta none none (getPy j "step") (getPy j "tokens"))
  | some (Json.arr xs) =>
    if xs.any (pyEqStr "text" ∘ some) || xs.any (pyEqStr "image" ∘ some) then
      LineResult.stop StreamEvent.failure
    else LineResult.event (StreamEvent.delta none none (getPy j "step") (getPy j "tokens"))
  | some _ => LineResult.stop StreamEvent.failure

/-- The loop body for one parsed line.  `json_data.get("status")` raises
`AttributeError` on a non-dict line (caught: one `Failure`, break);
otherwise the `elif` chain dispatches on the status string. -/
def processLine (j : Json) : LineResult :=
  match j with
  | Json.obj _ =>
    let status := getPy j "status"
    if pyEqStr "error" status then LineResult.stop StreamEvent.failure
    else if pyEqStr "initialized" status || pyEqStr "resumed" status then LineResult.skip
    else if pyEqStr "generating" status then processGenerating j
    else if pyEqStr "completed" status then
      LineResult.stop (StreamEvent.completion (getPy j "cost") (getPy j "cost_per_mtk"))
    else LineResult.skip
  | _ => LineResult.stop StreamEvent.failure

/-- One line of the response body as the client sees it. -/
inductive RawLine where
  | blank : RawLine
  | malformed : RawLine
  | parsed (j : Json) : RawLine

/-- The streaming decode loop over the received lines. -/
def processLines : List RawLine → List StreamEvent
  | [] => []
  | RawLine.blank :: rest => processLines rest
  | RawLine.malformed :: _ => [StreamEvent.failure]
  | RawLine.parsed j :: rest =>
    match processLine j with
    | LineResult.skip => processLines rest
    | LineResult.event e => e :: processLines rest
    | LineResult.stop e => [e]

/-- The client configuration: `APIClient.__init__` stores `api_key` and
`base_url` (and precomputes headers from them, which carry no extra
state). -/
structure APIClient where
  api_key : String
  base_url : String

/-- The arguments of one `generate` call.  Optional string parameters
default to Python `None`, modelled as `Option.none`. -/
structure GenArgs where
  prompt : String
  img : Option String
  role : String
  max_tokens : Int
  timeout : Int
  session_id : Option String
  model_id : Option String

/-- Python truthiness test `not x` for an optional string: true for
`None` and for the empty string. -/
def falsy : Option String → Bool
  | none => true
  | some s => s == ""

/-- The payload dictionary `generate` builds, as its ordered list of
entries, or `none` when a precondition check returns early (in which
case `requests.post` is never reached).  Follows lines 19-40 of the
source: the `api_key` / `prompt` / `base_url` truthiness guards, then
the new-vs-resume branch (`if not session_id`), the `model_id`
truthiness guard inside the new branch, and the field insertions in
source order. -/
def buildPayload (c : APIClient) (a : GenArgs) : Option (List (String × Json)) :=
  if c.api_key == "" then none
  else if a.prompt == "" then none
  else if c.base_url == "" then none
  else if falsy a.session_id then
    if falsy a.model_id then none
    else some ([("type", Json.str "new"), ("model_id", Json.str (a.model_id.getD ""))] ++
      [("input", Json.str a.prompt)] ++
      (if falsy a.img then [] else [("image", Json.str (a.img.getD ""))]) ++
      [("role", Json.str a.role), ("max_tokens", Json.num a.max_tokens),
       ("timeout", Json.num a.timeout)])
  else
    some ([("type", Json.str "resume"), ("session_id", Json.str (a.session_id.getD ""))] ++
      [("input", Json.str a.prompt)] ++
      (if falsy a.img then [] else [("image", Json.str (a.img.getD ""))]) ++
      [("role", Json.str a.role), ("max_tokens", Json.num a.max_tokens),
       ("timeout", Json.num a.timeout)])

/-- Whether the call reaches `requests.post`: exactly when a payload is
built (nothing between payload construction and the POST can fail). -/
def requestIssued (c : APIClient) (a : GenArgs) : Bool :=
  (buildPayload c a).isSome

/-- What the transport layer delivers.  `failure` covers a non-success
HTTP status (`raise_for_status`) and any network exception raised
before the first line; `stream lines interrupted` delivers `lines` and
then, when `interrupted`, raises a network exception (swallowed by the
outer `except`, so it only ends the iteration). -/
inductive Transport where
  | failure : Transport
  | stream (lines : List RawLine) (interrupted : Bool) : Transport

/-- The full `generate` call: the produced event sequence as a function
of the client, the arguments and the transport outcome.  A failed
precondition returns the empty sequence before any request; a transport
failure is caught by the outer `except` with no events; otherwise the
decode loop runs over the received lines (a mid-stream interruption is
also caught by the outer `except`, after the received lines). -/
def generate (c : APIClient) (a : GenArgs) (t : Transport) : List StreamEvent :=
  match buildPayload c a with
  | none => []
  | some _ =>
    match t with
    | Transport.failure => []
    | Transport.stream lines _ => processLines lines

/-- A client and arguments satisfying every precondition, used by the
concrete test cases. -/
def okClient : APIClient := APIClient.mk "key" "https://sintelli.workers.dev/api/v1/"

/-- Arguments of a valid new-session call. -/
def okArgs : GenArgs := GenArgs.mk "hello" none "user" 16234 5 none (some "m1")

/-- Arguments whose `session_id` is the empty string (a provided but
falsy value) and whose `model_id` is set. -/
def emptySessionArgs : GenArgs := GenArgs.mk "hello" none "user" 16234 5 (some "") (some "m1")

/-- The line `{"status":"initialized"}` once parsed. -/
def jsonInitialized : Json := Json.obj [("status", Json.str "initialized")]

/-- The line `{"status":"generating","delta":{"text":"hi"},"step":1,"tokens":3}` once parsed. -/
def jsonDeltaHi : Json := Json.obj [("status", Json.str "generating"),
  ("delta", Json.obj [("text", Json.str "hi")]), ("step", Json.num 1), ("tokens", Json.num 3)]

/-- The line `{"status":"completed","cost":10,"cost_per_mtk":2}` once parsed. -/
def jsonCompleted : Json := Json.obj [("status", Json.str "completed"), ("cost", Json.num 10),
  ("cost_per_mtk", Json.num 2)]

/-- The line `{"status":"error"}` once parsed. -/
def jsonError : Json := Json.obj [("status", Json.str "error")]

/-- A generating line whose delta is the JSON string `""` rather than an
object. -/
def jsonGenStrDelta : Json := Json.obj [("status", Json.str "generating"),
  ("delta", Json.str "")]

/-- A generating line with no `delta` key at all. -/
def jsonGenNoDelta : Json := Json.obj [("status", Json.str "generating")]

/-- Whether the fetched `delta` value makes `"text" in delta` raise
`TypeError`: Python `None` (a missing key or a JSON `null`), a number,
or a boolean do; dicts, strings and lists support `in`. -/
def deltaRaisesTypeError (j : Json) : Bool :=
  match getPy j "delta" with
  | none => true
  | some (Json.num _) => true
  | some (Json.bool _) => true
  | _ => false

/-- A line is non-terminating when the loop moves past it: a blank line,
or a parsed line whose processing neither breaks nor raises. -/
def nonTerm : RawLine → Bool
  | RawLine.blank => true
  | RawLine.malformed => false
  | RawLine.parsed j =>
    match processLine j with
    | LineResult.stop _ => false
    | _ => true

/-- The events a non-terminating line contributes. -/
def lineOut : RawLine → List StreamEvent
  | RawLine.blank => []
  | RawLine.malformed => []
  | RawLine.parsed j =>
    match processLine j with
    | LineResult.event e => [e]
    | _ => []

/-- The events contributed by a list of non-terminating lines. -/
def prefixEvents : List RawLine → List StreamEvent
  | [] => []
  | l :: rest => lineOut l ++ prefixEvents rest

/-- Whether an event is a delta (the only non-terminal kind). -/
def isDelta : StreamEvent → Bool
  | StreamEvent.delta _ _ _ _ => true
  | _ => false

/-- Every event of the list except possibly the last one is a delta. -/
def deltasThenTerminal : List StreamEvent → Bool
  | [] => true
  | [_] => true
  | e :: rest => isDelta e && deltasThenTerminal rest

theorem processLines_append (pre rest : List RawLine)
    (h : ∀ l ∈ pre, nonTerm l = true) :
    processLines (pre ++ rest) = prefixEvents pre ++ processLines rest := by
  induction pre with
  | nil => simp [prefixEvents]
  | cons l pre ih =>
    have hl : nonTerm l = true := h l (List.mem_cons_self l pre)
    have hpre : ∀ x ∈ pre, nonTerm x = true := fun x hx => h x (List.mem_cons_of_mem l hx)
    cases l with
    | blank => simpa [processLines, prefixEvents, lineOut] using ih hpre
    | malformed => simp [nonTerm] at hl
    | parsed j =>
      cases hj : processLine j with
      | skip => simpa [processLines, prefixEvents, lineOut, hj] using ih hpre
      | event e => simpa [processLines, prefixEvents, lineOut, hj] using ih hpre
      | stop e => simp [nonTerm, hj] at hl

theorem processLine_event_isDelta (j : Json) (e : StreamEvent)
    (h : processLine j = LineResult.event e) : isDelta e = true := by
  cases j with
  | obj fs =>
    simp only [processLine] at h
    split at h
    · cases h
    · split at h
      · cases h
      · split at h
        · simp only [processGenerating] at h
          split at h
          · cases h
          · cases h; rfl
          · split at h
            · cases h
            · cases h; rfl
          · split at h
            · cases h
            · cases h; rfl
          · cases h
        · split at h
          · cases h
          · cases h
  | null => exact absurd h (by simp [processLine])
  | bool b => exact absurd h (by simp [processLine])
  | num n => exact absurd h (by simp [processLine])
  | str s => exact absurd h (by simp [processLine])
  | arr xs => exact absurd h (by simp [processLine])

theorem deltasThenTerminal_cons (e : StreamEvent) (l : List StreamEvent)
    (he : isDelta e = true) (hl : deltasThenTerminal l = true) :
    deltasThenTerminal (e :: l) = true := by
  cases l with
  | nil => rfl
  | cons x xs => simp [deltasThenTerminal, he, hl]

theorem processLines_deltasThenTerminal (ls : List RawLine) :
    deltasThenTerminal (processLines ls) = true := by
  induction ls with
  | nil => rfl
  | cons l rest ih =>
    cases l with
    | blank => simpa [processLines] using ih
    | malformed => rfl
    | parsed j =>
      cases hj : processLine j with
      | skip => simpa [processLines, hj] using ih
      | event e =>
        have he := processLine_event_isDelta j e hj
        simpa [processLines, hj] using deltasThenTerminal_cons e (processLines rest) he ih
      | stop e => simp [processLines, hj, deltasThenTerminal]

theorem pyEqStr_eq {lit : String} {o : Option Json} (h : pyEqStr lit o = true) :
    o = some (Json.str lit) := by
  cases o with
  | none => simp [pyEqStr] at h
  | some j =>
    cases j with
    | str t => simp [pyEqStr] at h; rw [h]
    | null => simp [pyEqStr] at h
    | bool b => simp [pyEqStr] at h
    | num n => simp [pyEqStr] at h
    | arr xs => simp [pyEqStr] at h
    | obj fs => simp [pyEqStr] at h

theorem getPy_some_obj {j : Json} {k : String} {v : Json} (h : getPy j k = some v) :
    ∃ fs, j = Json.obj fs := by
  cases j with
  | obj fs => exact ⟨fs, rfl⟩
  | null => simp [getPy, Json.get] at h
  | bool b => simp [getPy, Json.get] at h
  | num n => simp [getPy, Json.get] at h
  | str s => simp [getPy, Json.get] at h
  | arr xs => simp [getPy, Json.get] at h

theorem processLine_error {j : Json}
    (hj : pyEqStr "error" (getPy j "status") = true) :
    processLine j = LineResult.stop StreamEvent.failure := by
  obtain ⟨fs, rfl⟩ := getPy_some_obj (pyEqStr_eq hj)
  simp [processLine, hj]

theorem lookupLast_of_keys (k k2 : String) (d : List (String × Json))
    (hk : ∀ p ∈ d, p.1 = k) (hne : k2 ≠ k) : lookupLast k2 d = none := by
  induction d with
  | nil => rfl
  | cons p rest ih =>
    have h1 : p.1 = k := hk p (List.mem_cons_self p rest)
    have h2 := ih (fun q hq => hk q (List.mem_cons_of_mem p hq))
    simp [lookupLast, h2, h1, Ne.symm hne]

theorem requestIssued_payload {c : APIClient} {a : GenArgs}
    (h : requestIssued c a = true) : ∃ p, buildPayload c a = some p := by
  simpa [requestIssued, Option.isSome_iff_exists] using h

/-- Claim C1: for the response body consisting of exactly the three
lines with status initialized, then generating with delta text hi
at step 1 with 3 tokens, then completed with cost 10 and cost_per_mtk 2,
`generate` produces exactly the two-event sequence of that Delta and
that Completion; the initialized line yields no event. -/
theorem C1_three_line_stream :
    generate okClient okArgs (Transport.stream [RawLine.parsed jsonInitialized,
      RawLine.parsed jsonDeltaHi, RawLine.parsed jsonCompleted] false) =
      [StreamEvent.delta (some (Json.str "hi")) none (some (Json.num 1)) (some (Json.num 3)),
       StreamEvent.completion (some (Json.num 10)) (some (Json.num 2))] := rfl

/-- Claim C2: a call with an empty `api_key`, an empty `prompt`, an
empty `base_url`, or with `session_id` absent and `model_id` absent or
empty, produces zero events whatever the transport would have
delivered, and issues no HTTP request. -/
theorem C2_precondition_empty (c : APIClient) (a : GenArgs) (t : Transport)
    (h : c.api_key = "" ∨ a.prompt = "" ∨ c.base_url = "" ∨
      (a.session_id = none ∧ (a.model_id = none ∨ a.model_id = some ""))) :
    generate c a t = [] ∧ requestIssued c a = false := by
  have hp : buildPayload c a = none := by
    rcases h with h | h | h | ⟨h1, h2⟩
    · simp [buildPayload, h]
    · simp [buildPayload, h]
    · simp [buildPayload, h]
    · rcases h2 with h2 | h2 <;> simp [buildPayload, falsy, h1, h2]
  exact ⟨by simp [generate, hp], by simp [requestIssued, hp]⟩

/-- Witness for C2: an empty api_key with a transport that would
deliver a delta line still yields no events and no request. -/
theorem C2_witness :
    generate (APIClient.mk "" "https://sintelli.workers.dev/api/v1/") okArgs
      (Transport.stream [RawLine.parsed jsonDeltaHi] false) = [] ∧
    requestIssued (APIClient.mk "" "https://sintelli.workers.dev/api/v1/") okArgs = false :=
  C2_precondition_empty _ _ _ (Or.inl rfl)

/-- Claim C8: in every produced event sequence, every event except
possibly the last one is a Delta: a Completion or Failure, when
present, is the final element and nothing follows it. -/
theorem C8_terminal_is_last (c : APIClient) (a : GenArgs) (t : Transport) :
    deltasThenTerminal (generate c a t) = true := by
  cases hp : buildPayload c a with
  | none => simp [generate, hp, deltasThenTerminal]
  | some p =>
    cases t with
    | failure => simp [generate, hp, deltasThenTerminal]
    | stream lines b => simpa [generate, hp] using processLines_deltasThenTerminal lines

/-- Claim C3 as stated is false: a response body can contain a line
with status error that is never reached, because an earlier completed
line already terminated the sequence; the error line then yields no
Failure event at all. -/
theorem C3_counterexample :
    generate okClient okArgs (Transport.stream [RawLine.parsed jsonCompleted,
      RawLine.parsed jsonError] false) =
      [StreamEvent.completion (some (Json.num 10)) (some (Json.num 2))] ∧
    StreamEvent.failure ∉ generate okClient okArgs (Transport.stream
      [RawLine.parsed jsonCompleted, RawLine.parsed jsonError] false) := by
  refine ⟨rfl, ?_⟩
  intro hmem
  rw [show generate okClient okArgs (Transport.stream [RawLine.parsed jsonCompleted,
    RawLine.parsed jsonError] false) =
    [StreamEvent.completion (some (Json.num 10)) (some (Json.num 2))] from rfl] at hmem
  simp at hmem

/-- Claim C3 (amended): when the decode loop reaches a line with status
error — that is, every earlier line is blank or processed without
breaking — `generate` emits the earlier Delta events followed by exactly
one Failure and terminates: no later line is read or produces an event. -/
theorem C3_error_terminates (c : APIClient) (a : GenArgs) (pre post : List RawLine)
    (j : Json) (b : Bool)
    (hreq : requestIssued c a = true)
    (hpre : ∀ l ∈ pre, nonTerm l = true)
    (hj : pyEqStr "error" (getPy j "status") = true) :
    generate c a (Transport.stream (pre ++ RawLine.parsed j :: post) b) =
      prefixEvents pre ++ [StreamEvent.failure] := by
  obtain ⟨p, hp⟩ := requestIssued_payload hreq
  simp only [generate, hp]
  rw [processLines_append pre _ hpre]
  simp [processLines, processLine_error hj]

/-- Witness for C3 (amended): an error line followed by a completed
line yields exactly one Failure. -/
theorem C3_witness :
    generate okClient okArgs (Transport.stream ([] ++ RawLine.parsed jsonError ::
      [RawLine.parsed jsonCompleted]) false) =
      prefixEvents [] ++ [StreamEvent.failure] :=
  C3_error_terminates okClient okArgs [] [RawLine.parsed jsonCompleted] jsonError false
    rfl (by simp) rfl

/-- Claim C4 as stated is false: a malformed line positioned after a
completed line is never reached, so no Failure event is emitted for it. -/
theorem C4_counterexample :
    generate okClient okArgs (Transport.stream [RawLine.parsed jsonCompleted,
      RawLine.malformed] false) =
      [StreamEvent.completion (some (Json.num 10)) (some (Json.num 2))] ∧
    StreamEvent.failure ∉ generate okClient okArgs (Transport.stream
      [RawLine.parsed jsonCompleted, RawLine.malformed] false) := by
  refine ⟨rfl, ?_⟩
  intro hmem
  rw [show generate okClient okArgs (Transport.stream [RawLine.parsed jsonCompleted,
    RawLine.malformed] false) =
    [StreamEvent.completion (some (Json.num 10)) (some (Json.num 2))] from rfl] at hmem
  simp at hmem

/-- Claim C4 (amended): when the decode loop reaches a line that fails
UTF-8 decoding or JSON parsing — every earlier line being blank or
processed without breaking — `generate` processes the earlier lines
normally (their Delta events are emitted), then emits exactly one
Failure and terminates, reading no further lines. -/
theorem C4_malformed_terminates (c : APIClient) (a : GenArgs) (pre post : List RawLine)
    (b : Bool)
    (hreq : requestIssued c a = true)
    (hpre : ∀ l ∈ pre, nonTerm l = true) :
    generate c a (Transport.stream (pre ++ RawLine.malformed :: post) b) =
      prefixEvents pre ++ [StreamEvent.failure] := by
  obtain ⟨p, hp⟩ := requestIssued_payload hreq
  simp only [generate, hp]
  rw [processLines_append pre _ hpre]
  simp [processLines]

/-- Witness for C4 (amended): a well-formed delta line, then a
malformed line, then a further line: the delta is emitted, one Failure
follows, the trailing line is unread. -/
theorem C4_witness :
    generate okClient okArgs (Transport.stream ([RawLine.parsed jsonDeltaHi] ++
      RawLine.malformed :: [RawLine.parsed jsonCompleted]) false) =
      prefixEvents [RawLine.parsed jsonDeltaHi] ++ [StreamEvent.failure] :=
  C4_malformed_terminates okClient okArgs [RawLine.parsed jsonDeltaHi]
    [RawLine.parsed jsonCompleted] false rfl
    (by intro l hl; rw [List.mem_singleton] at hl; subst hl; rfl)

/-- Claim C5 as stated is false: a network exception that interrupts
the stream after a generating line was received leaves the already
produced Delta in the sequence, which is then not empty. -/
theorem C5_counterexample :
    generate okClient okArgs (Transport.stream [RawLine.parsed jsonDeltaHi] true) =
      [StreamEvent.delta (some (Json.str "hi")) none (some (Json.num 1)) (some (Json.num 3))] ∧
    generate okClient okArgs (Transport.stream [RawLine.parsed jsonDeltaHi] true) ≠ [] := by
  refine ⟨rfl, ?_⟩
  rw [show generate okClient okArgs (Transport.stream [RawLine.parsed jsonDeltaHi] true) =
    [StreamEvent.delta (some (Json.str "hi")) none (some (Json.num 1)) (some (Json.num 3))]
    from rfl]
  simp

/-- Claim C5 (amended): a non-success HTTP status or a network
exception raised before any line is received produces zero events and
lets no exception propagate; a network exception that interrupts the
stream later is swallowed silently — the produced events are exactly
those of the lines received before the interruption, with no Failure
event added. -/
theorem C5_transport_silent (c : APIClient) (a : GenArgs) :
    generate c a Transport.failure = [] ∧
    ∀ lines : List RawLine,
      generate c a (Transport.stream lines true) = generate c a (Transport.stream lines false) := by
  constructor
  · cases hp : buildPayload c a <;> simp [generate, hp]
  · intro lines
    cases hp : buildPayload c a <;> simp [generate, hp]

/-- Claim C6 as stated is false: with `session_id` provided as the
empty string (and a model_id set) the request is sent, yet the payload
is a new-session payload — `type` is new and no `session_id` key is
present, because the code tests truthiness, not presence. -/
theorem C6_counterexample :
    emptySessionArgs.session_id = some "" ∧
    buildPayload okClient emptySessionArgs = some [("type", Json.str "new"),
      ("model_id", Json.str "m1"), ("input", Json.str "hello"), ("role", Json.str "user"),
      ("max_tokens", Json.num 16234), ("timeout", Json.num 5)] ∧
    lookupLast "type" [("type", Json.str "new"), ("model_id", Json.str "m1"),
      ("input", Json.str "hello"), ("role", Json.str "user"),
      ("max_tokens", Json.num 16234), ("timeout", Json.num 5)] = some (Json.str "new") ∧
    lookupLast "session_id" [("type", Json.str "new"), ("model_id", Json.str "m1"),
      ("input", Json.str "hello"), ("role", Json.str "user"),
      ("max_tokens", Json.num 16234), ("timeout", Json.num 5)] = none :=
  ⟨rfl, rfl, rfl, rfl⟩

/-- Claim C6 (amended): for every call that sends a request, if
`session_id` is absent or empty the payload contains a new `type` and
`model_id` and no `session_id`; if `session_id` is a non-empty string
the payload contains a resume `type` and `session_id` and no
`model_id`; the payload always contains `input` equal to the prompt,
`role`, `max_tokens` and `timeout`, and contains `image` exactly when
the image argument is provided and non-empty. -/
theorem C6_payload_shape (c : APIClient) (a : GenArgs) (p : List (String × Json))
    (hp : buildPayload c a = some p) :
    (falsy a.session_id = true →
      lookupLast "type" p = some (Json.str "new") ∧
      (lookupLast "model_id" p).isSome = true ∧
      lookupLast "session_id" p = none) ∧
    (falsy a.session_id = false →
      lookupLast "type" p = some (Json.str "resume") ∧
      (lookupLast "session_id" p).isSome = true ∧
      lookupLast "model_id" p = none) ∧
    lookupLast "input" p = some (Json.str a.prompt) ∧
    lookupLast "role" p = some (Json.str a.role) ∧
    lookupLast "max_tokens" p = some (Json.num a.max_tokens) ∧
    lookupLast "timeout" p = some (Json.num a.timeout) ∧
    (lookupLast "image" p).isSome = !falsy a.img := by
  simp only [buildPayload] at hp
  split at hp
  · exact absurd hp (by simp)
  · split at hp
    · exact absurd hp (by simp)
    · split at hp
      · exact absurd hp (by simp)
      · split at hp
        · rename_i hsess
          split at hp
          · exact absurd hp (by simp)
          · obtain rfl := Option.some.inj hp
            cases hi : falsy a.img with
            | true => simp +decide [lookupLast, hsess, hi]
            | false => simp +decide [lookupLast, hsess, hi]
        · rename_i hsess
          obtain rfl := Option.some.inj hp
          cases hi : falsy a.img with
          | true => simp +decide [lookupLast, hsess, hi]
          | false => simp +decide [lookupLast, hsess, hi]

/-- Witness for C6 (amended): the concrete new-session payload of a
valid call has the stated shape. -/
theorem C6_witness :
    (falsy okArgs.session_id = true →
      lookupLast "type" [("type", Json.str "new"), ("model_id", Json.str "m1"),
        ("input", Json.str "hello"), ("role", Json.str "user"),
        ("max_tokens", Json.num 16234), ("timeout", Json.num 5)] = some (Json.str "new") ∧
      (lookupLast "model_id" [("type", Json.str "new"), ("model_id", Json.str "m1"),
        ("input", Json.str "hello"), ("role", Json.str "user"),
        ("max_tokens", Json.num 16234), ("timeout", Json.num 5)]).isSome = true ∧
      lookupLast "session_id" [("type", Json.str "new"), ("model_id", Json.str "m1"),
        ("input", Json.str "hello"), ("role", Json.str "user"),
        ("max_tokens", Json.num 16234), ("timeout", Json.num 5)] = none) ∧
    (falsy okArgs.session_id = false →
      lookupLast "type" [("type", Json.str "new"), ("model_id", Json.str "m1"),
        ("input", Json.str "hello"), ("role", Json.str "user"),
        ("max_tokens", Json.num 16234), ("timeout", Json.num 5)] = some (Json.str "resume") ∧
      (lookupLast "session_id" [("type", Json.str "new"), ("model_id", Json.str "m1"),
        ("input", Json.str "hello"), ("role", Json.str "user"),
        ("max_tokens", Json.num 16234), ("timeout", Json.num 5)]).isSome = true ∧
      lookupLast "model_id" [("type", Json.str "new"), ("model_id", Json.str "m1"),
        ("input", Json.str "hello"), ("role", Json.str "user"),
        ("max_tokens", Json.num 16234), ("timeout", Json.num 5)] = none) ∧
    lookupLast "input" [("type", Json.str "new"), ("model_id", Json.str "m1"),
      ("input", Json.str "hello"), ("role", Json.str "user"),
      ("max_tokens", Json.num 16234), ("timeout", Json.num 5)] = some (Json.str okArgs.prompt) ∧
    lookupLast "role" [("type", Json.str "new"), ("model_id", Json.str "m1"),
      ("input", Json.str "hello"), ("role", Json.str "user"),
      ("max_tokens", Json.num 16234), ("timeout", Json.num 5)] = some (Json.str okArgs.role) ∧
    lookupLast "max_tokens" [("type", Json.str "new"), ("model_id", Json.str "m1"),
      ("input", Json.str "hello"), ("role", Json.str "user"),
      ("max_tokens", Json.num 16234), ("timeout", Json.num 5)] = some (Json.num okArgs.max_tokens) ∧
    lookupLast "timeout" [("type", Json.str "new"), ("model_id", Json.str "m1"),
      ("input", Json.str "hello"), ("role", Json.str "user"),
      ("max_tokens", Json.num 16234), ("timeout", Json.num 5)] = some (Json.num okArgs.timeout) ∧
    (lookupLast "image" [("type", Json.str "new"), ("model_id", Json.str "m1"),
      ("input", Json.str "hello"), ("role", Json.str "user"),
      ("max_tokens", Json.num 16234), ("timeout", Json.num 5)]).isSome = !falsy okArgs.img :=
  C6_payload_shape okClient okArgs _ rfl

/-- Claim C7: a generating line whose delta object has only a text key
yields a Delta whose image field is absent (and symmetrically a delta
object with only an image key yields a Delta whose text field is
absent); the Delta is emitted into the sequence and the loop continues
with the remaining lines. -/
theorem C7_single_key_delta (j : Json) (d : List (String × Json)) (rest : List RawLine)
    (hst : pyEqStr "generating" (getPy j "status") = true)
    (hd : getPy j "delta" = some (Json.obj d)) :
    processLines (RawLine.parsed j :: rest) =
      StreamEvent.delta (getPy (Json.obj d) "text") (getPy (Json.obj d) "image")
        (getPy j "step") (getPy j "tokens") :: processLines rest ∧
    ((∀ q ∈ d, q.1 = "text") → getPy (Json.obj d) "image" = none) ∧
    ((∀ q ∈ d, q.1 = "image") → getPy (Json.obj d) "text" = none) := by
  obtain ⟨fs, rfl⟩ := getPy_some_obj (pyEqStr_eq hst)
  have hse := pyEqStr_eq hst
  refine ⟨?_, ?_, ?_⟩
  · have hline : processLine (Json.obj fs) = LineResult.event (StreamEvent.delta
        (getPy (Json.obj d) "text") (getPy (Json.obj d) "image")
        (getPy (Json.obj fs) "step") (getPy (Json.obj fs) "tokens")) := by
      simp +decide [processLine, hse, processGenerating, hd]
    simp [processLines, hline]
  · intro hk
    simp [getPy, Json.get, lookupLast_of_keys "text" "image" d hk (by decide)]
  · intro hk
    simp [getPy, Json.get, lookupLast_of_keys "image" "text" d hk (by decide)]

/-- Witness for C7: the concrete text-only delta line emits a Delta
with text hi and no image. -/
theorem C7_witness :
    processLines (RawLine.parsed jsonDeltaHi :: []) =
      StreamEvent.delta (getPy (Json.obj [("text", Json.str "hi")]) "text")
        (getPy (Json.obj [("text", Json.str "hi")]) "image")
        (getPy jsonDeltaHi "step") (getPy jsonDeltaHi "tokens") :: processLines [] ∧
    ((∀ q ∈ [("text", Json.str "hi")], q.1 = "text") →
      getPy (Json.obj [("text", Json.str "hi")]) "image" = none) ∧
    ((∀ q ∈ [("text", Json.str "hi")], q.1 = "image") →
      getPy (Json.obj [("text", Json.str "hi")]) "text" = none) :=
  C7_single_key_delta jsonDeltaHi [("text", Json.str "hi")] [] rfl rfl

/-- Claim C9: a parsed object line whose status is none of error,
initialized, resumed, generating or completed (a missing status
included) yields no event and the loop continues with the next lines. -/
theorem C9_unknown_status_skipped (fs : List (String × Json)) (rest : List RawLine)
    (h1 : pyEqStr "error" (getPy (Json.obj fs) "status") = false)
    (h2 : pyEqStr "initialized" (getPy (Json.obj fs) "status") = false)
    (h3 : pyEqStr "resumed" (getPy (Json.obj fs) "status") = false)
    (h4 : pyEqStr "generating" (getPy (Json.obj fs) "status") = false)
    (h5 : pyEqStr "completed" (getPy (Json.obj fs) "status") = false) :
    processLines (RawLine.parsed (Json.obj fs) :: rest) = processLines rest := by
  have hline : processLine (Json.obj fs) = LineResult.skip := by
    simp [processLine, h1, h2, h3, h4, h5]
  simp [processLines, hline]

/-- Witness for C9: a line with the unrecognized status queued is
skipped and the following completed line is still processed. -/
theorem C9_witness :
    processLines (RawLine.parsed (Json.obj [("status", Json.str "queued")]) ::
      [RawLine.parsed jsonCompleted]) = processLines [RawLine.parsed jsonCompleted] :=
  C9_unknown_status_skipped [("status", Json.str "queued")] [RawLine.parsed jsonCompleted]
    rfl rfl rfl rfl rfl

/-- Claim C10 as stated is false: a generating line whose delta is the
JSON string (not an object) does not raise, because the membership
tests run on the string; it yields a Delta with all fields absent, not
a Failure, and the loop would continue. -/
theorem C10_counterexample :
    generate okClient okArgs (Transport.stream [RawLine.parsed jsonGenStrDelta] false) =
      [StreamEvent.delta none none none none] ∧
    StreamEvent.failure ∉ generate okClient okArgs
      (Transport.stream [RawLine.parsed jsonGenStrDelta] false) := by
  refine ⟨rfl, ?_⟩
  intro hmem
  rw [show generate okClient okArgs (Transport.stream [RawLine.parsed jsonGenStrDelta] false) =
    [StreamEvent.delta none none none none] from rfl] at hmem
  simp at hmem

/-- Claim C10 (amended): when the decode loop reaches a generating line
whose fetched delta is Python None (missing key or JSON null), a
number, or a boolean — the values on which the membership test raises
TypeError — `generate` emits the earlier Delta events followed by
exactly one Failure and terminates, reading no further lines.  (A
string or array delta does not raise on the membership test itself and
can instead yield a Delta with text and image absent.) -/
theorem C10_delta_typeerror_failure (c : APIClient) (a : GenArgs) (pre post : List RawLine)
    (j : Json) (b : Bool)
    (hreq : requestIssued c a = true)
    (hpre : ∀ l ∈ pre, nonTerm l = true)
    (hst : pyEqStr "generating" (getPy j "status") = true)
    (hd : deltaRaisesTypeError j = true) :
    generate c a (Transport.stream (pre ++ RawLine.parsed j :: post) b) =
      prefixEvents pre ++ [StreamEvent.failure] := by
  obtain ⟨p, hp⟩ := requestIssued_payload hreq
  obtain ⟨fs, rfl⟩ := getPy_some_obj (pyEqStr_eq hst)
  have hse := pyEqStr_eq hst
  have hline : processLine (Json.obj fs) = LineResult.stop StreamEvent.failure := by
    cases hdel : getPy (Json.obj fs) "delta" with
    | none => simp +decide [processLine, hse, processGenerating, hdel]
    | some v =>
      cases v with
      | num n => simp +decide [processLine, hse, processGenerating, hdel]
      | bool bb => simp +decide [processLine, hse, processGenerating, hdel]
      | null => simp [deltaRaisesTypeError, hdel] at hd
      | str s => simp [deltaRaisesTypeError, hdel] at hd
      | arr xs => simp [deltaRaisesTypeError, hdel] at hd
      | obj dd => simp [deltaRaisesTypeError, hdel] at hd
  simp only [generate, hp]
  rw [processLines_append pre _ hpre]
  simp [processLines, hline]

/-- Witness for C10 (amended): a generating line with no delta key
yields exactly one Failure. -/
theorem C10_witness :
    generate okClient okArgs (Transport.stream ([] ++ RawLine.parsed jsonGenNoDelta :: [])
      false) = prefixEvents [] ++ [StreamEvent.failure] :=
  C10_delta_typeerror_failure okClient okArgs [] [] jsonGenNoDelta false rfl (by simp) rfl rfl
